import Mathlib

/-!
Verification development for the elgato4k-linux control core.

Bytes are modelled as `Nat` (with `% 256` where u8 wrap-around matters).
Pure functions of the Rust source become Lean functions; the USB transport
is modelled as an oracle of per-call outcomes threaded through an explicit
state that also logs every transfer, so error-propagation and
"zero transport calls" properties can be stated exactly.
-/

namespace Elgato

/-- Little-endian byte decomposition of a u16 (`u16::to_le_bytes`). -/
def u16le (n : Nat) : List Nat := [n % 256, n / 256 % 256]

/-- Little-endian byte decomposition of a u32 (`u32::to_le_bytes`). -/
def u32le (n : Nat) : List Nat :=
  [n % 256, n / 256 % 256, n / 65536 % 256, n / 16777216 % 256]

-- ---------------------------------------------------------------------------
-- Protocol constants (src/protocol.rs)
-- ---------------------------------------------------------------------------

/-- bmRequestType for host-to-device class request (HID). -/
def HID_REQUEST_TYPE_OUT : Nat := 0x21
/-- bmRequestType for device-to-host class request (HID). -/
def HID_REQUEST_TYPE_IN : Nat := 0xA1
/-- HID SET_REPORT bRequest. -/
def HID_SET_REPORT : Nat := 0x09
/-- HID GET_REPORT bRequest. -/
def HID_GET_REPORT : Nat := 0x01
/-- wValue for Output Report (Report Type=Output 0x02, Report ID=0x06). -/
def HID_REPORT_VALUE_OUTPUT : Nat := 0x0206
/-- wValue for Input Report (Report Type=Input 0x01, Report ID=0x06). -/
def HID_REPORT_VALUE_INPUT : Nat := 0x0106
/-- HID interface number on the 4K S. -/
def HID_INTERFACE : Nat := 7
/-- Fixed HID report size (all packets are zero-padded to 255 bytes). -/
def HID_PACKET_SIZE : Nat := 255
/-- Report ID prepended to every HID packet. -/
def HID_REPORT_ID : Nat := 0x06

/-- HID write packet header `[report_id, 0x06, 0x06, 0x55, 0x02]`. -/
def HID_WRITE_HEADER : List Nat := [0x06, 0x06, 0x06, 0x55, 0x02]

/-- HID read command byte (cmd field in read request packets). -/
def HID_READ_CMD : Nat := 0x55

/-- Firmware version read sub-command. -/
def SUBCMD_FIRMWARE_VERSION : Nat := 0x02
/-- Audio input selection sub-command. -/
def SUBCMD_AUDIO_INPUT : Nat := 0x08
/-- HDR tone mapping sub-command. -/
def SUBCMD_HDR_TONEMAPPING : Nat := 0x0a
/-- HDMI color range sub-command. -/
def SUBCMD_COLOR_RANGE : Nat := 0x0b
/-- EDID mode sub-command. -/
def SUBCMD_EDID_MODE : Nat := 0x12
/-- Commit/apply sub-command (second packet of a two-packet write). -/
def SUBCMD_COMMIT : Nat := 0x13
/-- Video scaler sub-command. -/
def SUBCMD_VIDEO_SCALER : Nat := 0x19

/-- bmRequestType for UVC class request (host-to-device). -/
def UVC_REQUEST_TYPE_OUT : Nat := 0x21
/-- bmRequestType for UVC class request (device-to-host). -/
def UVC_REQUEST_TYPE_IN : Nat := 0xA1
/-- SET_CUR bRequest. -/
def UVC_SET_CUR : Nat := 0x01
/-- GET_CUR bRequest. -/
def UVC_GET_CUR : Nat := 0x81
/-- GET_LEN bRequest. -/
def UVC_GET_LEN : Nat := 0x85
/-- UVC interface number for Extension Unit #4. -/
def UVC_INTERFACE : Nat := 0
/-- Extension Unit entity ID. -/
def UVC_ENTITY_ID : Nat := 4
/-- Selector for trigger/length data. -/
def UVC_SELECTOR_TRIGGER : Nat := 0x02
/-- Selector for payload/value data. -/
def UVC_SELECTOR_VALUE : Nat := 0x01

/-- AT command ID for setting USB speed. -/
def AT_CMD_SET_USB_SPEED : Nat := 0x8e

/-- Maximum valid BCD month (0x12 = December). -/
def BCD_MAX_MONTH : Nat := 0x12
/-- Maximum valid BCD day (0x31 = 31st). -/
def BCD_MAX_DAY : Nat := 0x31

/-- UVC response family byte for color-range reads. Not a named constant in
src/protocol.rs; its value 0x06 is fixed by the tests in src/status.rs. -/
def UVC_FAMILY_COLOR_RANGE : Nat := 0x06
/-- UVC response family byte for HDR reads (fixed at 0x07 by the src tests
and the `a1 07` HDR payloads in src/settings.rs). -/
def UVC_FAMILY_HDR : Nat := 0x07
/-- UVC response family byte for EDID-range reads (fixed at 0x08 by the src
tests and the `a1 08` payloads in src/settings.rs). -/
def UVC_FAMILY_EDID_RANGE : Nat := 0x08
/-- UVC response family byte for EDID-source / custom-EDID reads (fixed at
0x0a by the src tests and the `a1 0a` payloads in src/settings.rs). -/
def UVC_FAMILY_EDID_SOURCE : Nat := 0x0a

-- ---------------------------------------------------------------------------
-- Setting enums and payload generation (src/settings.rs)
-- ---------------------------------------------------------------------------

/-- Which device model we are talking to. -/
inductive DeviceModel
  | Elgato4KX
  | Elgato4KS
deriving DecidableEq, Fintype

/-- Build a single HID settings write packet
`[06 06 06 55 02] [sub_cmd] [value]` padded to `HID_PACKET_SIZE`. -/
def hid_write_packet (sub_cmd value : Nat) : List Nat :=
  HID_WRITE_HEADER ++ [sub_cmd, value] ++
    List.replicate (HID_PACKET_SIZE - HID_WRITE_HEADER.length - 2) 0

/-- EDID Range Policy (controls color range quantization). -/
inductive EdidRangePolicy
  | Expand
  | Shrink
  | Auto
deriving DecidableEq, Fintype

/-- 4K X payload for the EDID range policy (`a1 08` family, 11 bytes). -/
def EdidRangePolicy.payload_4kx : EdidRangePolicy → List Nat
  | .Auto   => [0xa1, 0x08, 0x00, 0x00, 0x7c, 0x00, 0x00, 0x00, 0x01, 0x00, 0xda]
  | .Expand => [0xa1, 0x08, 0x00, 0x00, 0x7c, 0x00, 0x00, 0x00, 0x01, 0x03, 0xd7]
  | .Shrink => [0xa1, 0x08, 0x00, 0x00, 0x7c, 0x00, 0x00, 0x00, 0x01, 0x04, 0xd6]

/-- Value byte the 4K S codec places for the color range. -/
def EdidRangePolicy.value_4ks : EdidRangePolicy → Nat
  | .Auto   => 0x00
  | .Expand => 0x01
  | .Shrink => 0x02

/-- 4K S HID payload for the color range. -/
def EdidRangePolicy.payload_4ks (p : EdidRangePolicy) : List Nat :=
  hid_write_packet SUBCMD_COLOR_RANGE p.value_4ks

/-- EDID source selection. -/
inductive EdidSource
  | Display
  | Merged
  | Internal
deriving DecidableEq, Fintype

/-- 4K X payload for the EDID source (`a1 0a` family, 13 bytes). -/
def EdidSource.payload_4kx : EdidSource → List Nat
  | .Display  => [0xa1, 0x0a, 0x00, 0x00, 0x4d, 0x00, 0x00, 0x00, 0x01, 0x00, 0x00, 0x00, 0x07]
  | .Merged   => [0xa1, 0x0a, 0x00, 0x00, 0x4d, 0x00, 0x00, 0x00, 0x04, 0x00, 0x00, 0x00, 0x04]
  | .Internal => [0xa1, 0x0a, 0x00, 0x00, 0x4d, 0x00, 0x00, 0x00, 0x00, 0x00, 0x00, 0x00, 0x08]

/-- Value byte the 4K S codec places for the EDID mode. -/
def EdidSource.value_4ks : EdidSource → Nat
  | .Merged   => 0x00
  | .Display  => 0x01
  | .Internal => 0x02

/-- 4K S HID payload for the EDID mode. -/
def EdidSource.payload_4ks (p : EdidSource) : List Nat :=
  hid_write_packet SUBCMD_EDID_MODE p.value_4ks

/-- HDR tone mapping toggle. -/
inductive HdrToneMapping
  | On
  | Off
deriving DecidableEq, Fintype

/-- 4K X payload for HDR tone mapping (`a1 07` family, 10 bytes). -/
def HdrToneMapping.payload_4kx : HdrToneMapping → List Nat
  | .On  => [0xa1, 0x07, 0x00, 0x00, 0x1f, 0x00, 0x00, 0x00, 0x01, 0x38]
  | .Off => [0xa1, 0x07, 0x00, 0x00, 0x1f, 0x00, 0x00, 0x00, 0x00, 0x39]

/-- Value byte the 4K S codec places for HDR tone mapping. -/
def HdrToneMapping.value_4ks : HdrToneMapping → Nat
  | .On  => 0x01
  | .Off => 0x00

/-- 4K S HID payload for HDR tone mapping. -/
def HdrToneMapping.payload_4ks (p : HdrToneMapping) : List Nat :=
  hid_write_packet SUBCMD_HDR_TONEMAPPING p.value_4ks

/-- Custom EDID preset toggle (4K X only). -/
inductive CustomEdidMode
  | Off
  | On
deriving DecidableEq, Fintype

/-- 4K X payload for the custom EDID preset (`a1 0a` family, 13 bytes). -/
def CustomEdidMode.payload_4kx : CustomEdidMode → List Nat
  | .Off => [0xa1, 0x0a, 0x00, 0x00, 0x54, 0x00, 0x00, 0x00, 0x00, 0x00, 0x80, 0x00, 0x81]
  | .On  => [0xa1, 0x0a, 0x00, 0x00, 0x54, 0x00, 0x00, 0x00, 0x00, 0x01, 0x80, 0x00, 0x80]

/-- Audio input source selection (4K S only). -/
inductive AudioInput
  | Embedded
  | Analog
deriving DecidableEq, Fintype

/-- Value byte the 4K S codec places for the audio input. -/
def AudioInput.value_4ks : AudioInput → Nat
  | .Embedded => 0x00
  | .Analog   => 0x01

/-- 4K S HID payload for the audio input. -/
def AudioInput.payload_4ks (p : AudioInput) : List Nat :=
  hid_write_packet SUBCMD_AUDIO_INPUT p.value_4ks

/-- Video scaler toggle (4K S only). -/
inductive VideoScaler
  | On
  | Off
deriving DecidableEq, Fintype

/-- Value byte the 4K S codec places for the video scaler. -/
def VideoScaler.value_4ks : VideoScaler → Nat
  | .On  => 0x01
  | .Off => 0x00

/-- 4K S HID payload for the video scaler. -/
def VideoScaler.payload_4ks (p : VideoScaler) : List Nat :=
  hid_write_packet SUBCMD_VIDEO_SCALER p.value_4ks

/-- USB speed mode (4K X only, AT command 0x8e). -/
inductive UsbSpeed
  | FiveGbps
  | TenGbps
deriving DecidableEq, Fintype

/-- AT command 0x8e input: 8-byte payload. -/
def UsbSpeed.at_input : UsbSpeed → List Nat
  | .FiveGbps => [0x01, 0x00, 0x00, 0x00, 0x00, 0x00, 0x00, 0x00]
  | .TenGbps  => [0x01, 0x00, 0x00, 0x00, 0x03, 0x00, 0x00, 0x00]

-- ---------------------------------------------------------------------------
-- Status decoding (src/status.rs)
-- ---------------------------------------------------------------------------

/-- Value read from the device: a known enum variant or an unrecognized raw
byte. -/
inductive ReadValue (T : Type)
  | Known (v : T)
  | Unknown (b : Nat)
deriving DecidableEq

/-- USB speed mode reported by the device (read-only status). -/
inductive UsbSpeedStatus
  | FiveGbps
  | TenGbps
deriving DecidableEq, Fintype

/-- Custom EDID preset state as read from the device (4K X only). -/
inductive CustomEdidStatus
  | Off
  | On (preset_index : Nat)
deriving DecidableEq

/-- Decode HDR tone mapping byte. -/
def decode_hdr : Nat → ReadValue HdrToneMapping
  | 0x01 => .Known .On
  | 0x00 => .Known .Off
  | v => .Unknown v

/-- Decode HDMI color range byte. -/
def decode_color_range : Nat → ReadValue EdidRangePolicy
  | 0x00 => .Known .Auto
  | 0x01 => .Known .Expand
  | 0x02 => .Known .Shrink
  | v => .Unknown v

/-- Decode EDID mode byte. -/
def decode_edid_mode : Nat → ReadValue EdidSource
  | 0x00 => .Known .Merged
  | 0x01 => .Known .Display
  | 0x02 => .Known .Internal
  | v => .Unknown v

/-- Decode audio input byte. -/
def decode_audio_input : Nat → ReadValue AudioInput
  | 0x00 | 0x01 => .Known .Embedded
  | 0x03 => .Known .Analog
  | v => .Unknown v

/-- Decode video scaler byte. -/
def decode_video_scaler : Nat → ReadValue VideoScaler
  | 0x01 => .Known .On
  | 0x00 => .Known .Off
  | v => .Unknown v

/-- Decode UVC color range response (family 0x06, 9 bytes). Rust indexes the
slice after an explicit length guard; the guarded accesses are modelled with
`List.getD`. -/
def decode_uvc_color_range (data : List Nat) : Option (ReadValue EdidRangePolicy) :=
  if data.length < 9 ∨ data.getD 0 0 ≠ 0xa1 ∨ data.getD 1 0 ≠ UVC_FAMILY_COLOR_RANGE then
    none
  else
    some (match data.getD 4 0 with
      | 0x43 => .Known .Expand
      | 0x2b => .Known .Shrink
      | 0x37 => .Known .Auto
      | v => .Unknown v)

/-- Decode UVC HDR tone mapping response (family 0x07, 10 bytes). -/
def decode_uvc_hdr (data : List Nat) : Option (ReadValue HdrToneMapping) :=
  if data.length < 10 ∨ data.getD 0 0 ≠ 0xa1 ∨ data.getD 1 0 ≠ UVC_FAMILY_HDR ∨
      data.getD 4 0 ≠ 0x1f then
    none
  else
    some (match data.getD 8 0 with
      | 0x01 => .Known .On
      | 0x00 => .Known .Off
      | v => .Unknown v)

/-- Decode UVC EDID range policy response (family 0x08, 11 bytes). -/
def decode_uvc_edid_range (data : List Nat) : Option (ReadValue EdidRangePolicy) :=
  if data.length < 11 ∨ data.getD 0 0 ≠ 0xa1 ∨ data.getD 1 0 ≠ UVC_FAMILY_EDID_RANGE ∨
      data.getD 4 0 ≠ 0x7c then
    none
  else
    some (match data.getD 9 0 with
      | 0x00 => .Known .Auto
      | 0x03 => .Known .Expand
      | 0x04 => .Known .Shrink
      | v => .Unknown v)

/-- Decode UVC EDID source / custom EDID response (family 0x0a, 13 bytes).
Returns the pair `(edid_source, custom_edid)`; the branch is chosen purely by
the interior type byte at offset 4. -/
def decode_uvc_edid_source (data : List Nat) :
    Option (ReadValue EdidSource) × Option CustomEdidStatus :=
  if data.length < 13 ∨ data.getD 0 0 ≠ 0xa1 ∨ data.getD 1 0 ≠ UVC_FAMILY_EDID_SOURCE then
    (none, none)
  else
    match data.getD 4 0 with
    | 0x4d =>
      let v : ReadValue EdidSource :=
        match data.getD 8 0 with
        | 0x01 => .Known .Display
        | 0x04 => .Known .Merged
        | 0x00 => .Known .Internal
        | v => .Unknown v
      (some v, none)
    | 0x54 =>
      let status :=
        match data.getD 9 0 with
        | 0x00 => CustomEdidStatus.Off
        | idx => CustomEdidStatus.On idx
      (none, some status)
    | _ => (none, none)

-- ---------------------------------------------------------------------------
-- String formatting helpers (mirroring the Rust `format!` specifiers)
-- ---------------------------------------------------------------------------

/-- Lower-case hex digit for a nibble. -/
def hexDigit : Nat → Char
  | 0 => '0' | 1 => '1' | 2 => '2' | 3 => '3' | 4 => '4'
  | 5 => '5' | 6 => '6' | 7 => '7' | 8 => '8' | 9 => '9'
  | 10 => 'a' | 11 => 'b' | 12 => 'c' | 13 => 'd' | 14 => 'e'
  | _ => 'f'

/-- Render a byte as two lower-case hex digits (Rust `{:02x}` on a u8). -/
def hex2 (n : Nat) : String :=
  String.mk [hexDigit (n / 16 % 16), hexDigit (n % 16)]

/-- Render a u32 as eight lower-case hex digits (Rust `{:08x}`). -/
def hex8 (n : Nat) : String :=
  hex2 (n / 16777216 % 256) ++ hex2 (n / 65536 % 256) ++ hex2 (n / 256 % 256) ++ hex2 (n % 256)

/-- Render a byte slice like Rust `{:02x?}`, e.g. `[25, 15, 03]`. -/
def fmtBytesHex (bs : List Nat) : String :=
  "[" ++ String.intercalate ", " (bs.map hex2) ++ "]"

/-- Render a Nat with at least two decimal digits (Rust `{:02}`). -/
def pad2 (n : Nat) : String :=
  if n < 10 then "0" ++ toString n else toString n

-- ---------------------------------------------------------------------------
-- Firmware version formatting (src/status.rs)
-- ---------------------------------------------------------------------------

/-- Format firmware version from AT command 0x77 response (4K X):
YYMMDD packed decimal in the first 4 bytes as u32 LE. -/
def format_firmware_version_4kx (data : List Nat) : String :=
  let version :=
    data.getD 0 0 + 256 * data.getD 1 0 + 65536 * data.getD 2 0 + 16777216 * data.getD 3 0
  if version = 0 then
    "Unknown (no version reported)"
  else
    let yy := version / 10000
    let mm := version / 100 % 100
    let dd := version % 100
    if 1 ≤ mm ∧ mm ≤ 12 ∧ 1 ≤ dd ∧ dd ≤ 31 then
      pad2 yy ++ "." ++ pad2 mm ++ "." ++ pad2 dd ++ " (raw: " ++ toString version ++ ")"
    else
      "Raw: " ++ toString version ++ " (0x" ++ hex8 version ++ ", bytes: " ++
        fmtBytesHex (data.take (min 16 data.length)) ++ ")"

/-- Format firmware version from an HID response (4K S): bytes 3-5 are
`[YY, MM, DD]` in BCD encoding. This totalized version (indexed bytes read
with `List.getD`) is meaningful only on inputs whose bytes 3-5 exist; the
faithful model of the unconditional Rust indexing, whose out-of-bounds panic
becomes `none`, is `format_firmware_version_4ks_checked` below, and the two
agree on every input of length at least 6. -/
def format_firmware_version_4ks (data : List Nat) : String :=
  let yy := data.getD 3 0
  let mm := data.getD 4 0
  let dd := data.getD 5 0
  if yy = 0 ∧ mm = 0 ∧ dd = 0 then
    "Unknown (no version reported)"
  else if 1 ≤ mm ∧ mm ≤ BCD_MAX_MONTH ∧ 1 ≤ dd ∧ dd ≤ BCD_MAX_DAY then
    hex2 yy ++ "." ++ hex2 mm ++ "." ++ hex2 dd
  else
    "Raw: " ++ fmtBytesHex (data.take (min 8 data.length))

/-- Faithful model of `format_firmware_version_4ks`: the Rust code reads
`data[3]`, `data[4]`, `data[5]` unconditionally, so an input missing any of
those bytes panics with an index out of bounds — modelled as `none`. -/
def format_firmware_version_4ks_checked (data : List Nat) : Option String :=
  match data.get? 3, data.get? 4, data.get? 5 with
  | some yy, some mm, some dd =>
    some (if yy = 0 ∧ mm = 0 ∧ dd = 0 then
        "Unknown (no version reported)"
      else if 1 ≤ mm ∧ mm ≤ BCD_MAX_MONTH ∧ 1 ≤ dd ∧ dd ≤ BCD_MAX_DAY then
        hex2 yy ++ "." ++ hex2 mm ++ "." ++ hex2 dd
      else
        "Raw: " ++ fmtBytesHex (data.take (min 8 data.length)))
  | _, _, _ => none

-- ---------------------------------------------------------------------------
-- AT command framing (src/uvc.rs, send_at_command lines 197-206)
-- ---------------------------------------------------------------------------

/-- Build the framed AT command payload
`[0xa1, length_indicator, 0x00, 0x00, cmd_id(4B LE), input..., LRC]`
exactly as `send_at_command` does before submitting it. The running sum uses
u8 wrapping addition; the trailing byte is `0u8.wrapping_sub(sum)`. -/
def atCommandFrame (cmd_id : Nat) (input : List Nat) : List Nat :=
  let data := u32le cmd_id ++ input
  let length_indicator := (data.length + 2) &&& 0x7f
  let payload := [0xa1, length_indicator, 0x00, 0x00] ++ data
  let sum := payload.foldl (fun acc b => (acc + b) % 256) 0
  payload ++ [(256 - sum) % 256]

-- ---------------------------------------------------------------------------
-- Transport model
--
-- The rusb control-transfer primitive is modelled as an oracle of per-call
-- outcomes: call number `i` either fails with a transport error string or
-- returns the bytes the device produced (writes ignore them). The state logs
-- every transfer issued, so "no later step is performed" is the statement
-- that the log did not grow.
-- ---------------------------------------------------------------------------

/-- One issued USB control transfer. -/
inductive UsbXfer
  | controlWrite (requestType bRequest wValue wIndex : Nat) (data : List Nat)
  | controlRead (requestType bRequest wValue wIndex bufLen : Nat)
deriving DecidableEq

/-- Transport state: the outcome oracle, the index of the next call, and the
log of transfers issued so far. -/
structure UsbState where
  oracle : Nat → Except String (List Nat)
  idx : Nat
  calls : List UsbXfer

/-- Issue `write_control`: consume the next oracle outcome and log the call. -/
def usbControlWrite (requestType bRequest wValue wIndex : Nat) (data : List Nat)
    (s : UsbState) : UsbState × Except String Unit :=
  let r := s.oracle s.idx
  ({ s with idx := s.idx + 1,
            calls := s.calls ++ [.controlWrite requestType bRequest wValue wIndex data] },
   r.map fun _ => ())

/-- Issue `read_control` with a buffer of `bufLen` bytes: the bytes from the
device are truncated to the buffer size, mirroring rusb filling the buffer of
the caller. -/
def usbControlRead (requestType bRequest wValue wIndex bufLen : Nat)
    (s : UsbState) : UsbState × Except String (List Nat) :=
  let r := s.oracle s.idx
  ({ s with idx := s.idx + 1,
            calls := s.calls ++ [.controlRead requestType bRequest wValue wIndex bufLen] },
   r.map fun bytes => bytes.take bufLen)

/-- Structured errors (src/error.rs). The `Message` constructor stands for
the `Box<dyn Error>` string errors produced by src/hid.rs. -/
inductive ElgatoError
  | DeviceNotFound
  | HidPacketSize (expected got : Nat)
  | HidTransfer (msg : String)
  | UvcTransfer (msg : String)
  | UnsupportedFeature (feature model : String)
  | Message (msg : String)
deriving DecidableEq

-- ---------------------------------------------------------------------------
-- UVC Extension Unit transport (src/uvc.rs)
-- ---------------------------------------------------------------------------

/-- wIndex used by every XU transfer: `(UVC_ENTITY_ID << 8) | UVC_INTERFACE`. -/
def uvcWIndex : Nat := (UVC_ENTITY_ID <<< 8) ||| UVC_INTERFACE

/-- Send a trigger with arbitrary data to selector 0x02. -/
def send_uvc_trigger_data (data : List Nat) (s : UsbState) :
    UsbState × Except ElgatoError Unit :=
  match usbControlWrite UVC_REQUEST_TYPE_OUT UVC_SET_CUR (UVC_SELECTOR_TRIGGER <<< 8)
      uvcWIndex data s with
  | (s1, .ok _) => (s1, .ok ())
  | (s1, .error e) => (s1, .error (.UvcTransfer ("trigger SET_CUR failed: " ++ e)))

/-- Send a payload to selector 0x01. -/
def send_uvc_payload (payload : List Nat) (s : UsbState) :
    UsbState × Except ElgatoError Unit :=
  match usbControlWrite UVC_REQUEST_TYPE_OUT UVC_SET_CUR (UVC_SELECTOR_VALUE <<< 8)
      uvcWIndex payload s with
  | (s1, .ok _) => (s1, .ok ())
  | (s1, .error e) => (s1, .error (.UvcTransfer ("payload SET_CUR failed: " ++ e)))

/-- Two-step write: length trigger (payload length as u16 LE) + payload. -/
def set_uvc_setting (payload : List Nat) (s : UsbState) :
    UsbState × Except ElgatoError Unit :=
  match send_uvc_trigger_data (u16le payload.length) s with
  | (s1, .error e) => (s1, .error e)
  | (s1, .ok _) => send_uvc_payload payload s1

/-- GET_LEN on a selector — returns the current descriptor length (u16 LE
read from a 2-byte buffer; fewer than 2 returned bytes is an error). -/
def get_uvc_len (selector : Nat) (s : UsbState) : UsbState × Except ElgatoError Nat :=
  match usbControlRead UVC_REQUEST_TYPE_IN UVC_GET_LEN (selector <<< 8) uvcWIndex 2 s with
  | (s1, .error e) => (s1, .error (.UvcTransfer ("GET_LEN failed: " ++ e)))
  | (s1, .ok bytes) =>
    if bytes.length < 2 then
      (s1, .error (.UvcTransfer ("GET_LEN returned " ++ toString bytes.length ++ " bytes")))
    else
      (s1, .ok (bytes.getD 0 0 + 256 * bytes.getD 1 0))

/-- GET_CUR on selector 0x01 with a specific buffer size; the result is
truncated to the number of bytes actually returned. -/
def read_uvc_raw (length : Nat) (s : UsbState) : UsbState × Except ElgatoError (List Nat) :=
  match usbControlRead UVC_REQUEST_TYPE_IN UVC_GET_CUR (UVC_SELECTOR_VALUE <<< 8)
      uvcWIndex length s with
  | (s1, .error e) => (s1, .error (.UvcTransfer ("GET_CUR failed: " ++ e)))
  | (s1, .ok bytes) => (s1, .ok bytes)

/-- GET_CUR on selector 0x01 using GET_LEN to determine the buffer size. -/
def read_uvc_setting (s : UsbState) : UsbState × Except ElgatoError (List Nat) :=
  match get_uvc_len UVC_SELECTOR_VALUE s with
  | (s1, .error e) => (s1, .error e)
  | (s1, .ok response_len) => read_uvc_raw response_len s1

/-- Read GET_CUR on selector 0x02 (trigger/status register). -/
def poll_uvc_status (s : UsbState) : UsbState × Except ElgatoError (List Nat) :=
  match get_uvc_len UVC_SELECTOR_TRIGGER s with
  | (s1, .error e) => (s1, .error e)
  | (s1, .ok response_len) =>
    match usbControlRead UVC_REQUEST_TYPE_IN UVC_GET_CUR (UVC_SELECTOR_TRIGGER <<< 8)
        uvcWIndex response_len s1 with
    | (s2, .error e) => (s2, .error (.UvcTransfer ("status GET_CUR failed: " ++ e)))
    | (s2, .ok bytes) => (s2, .ok bytes)

/-- Write a probe payload, then read back the response using GET_LEN. The
source discards the result of the status poll (a `let _ =` binding), errors
included, and always continues to the read half. -/
def probe_uvc_setting (probe : List Nat) (s : UsbState) :
    UsbState × Except ElgatoError (List Nat) :=
  match set_uvc_setting probe s with
  | (s1, .error e) => (s1, .error e)
  | (s1, .ok _) =>
    let s2 := (poll_uvc_status s1).1
    read_uvc_setting s2

/-- Send a framed AT command and read the ACK response (4K X only). -/
def send_at_command (model : DeviceModel) (cmd_id : Nat) (input : List Nat)
    (s : UsbState) : UsbState × Except ElgatoError (List Nat) :=
  if model ≠ DeviceModel.Elgato4KX then
    (s, .error (.UnsupportedFeature "AT commands" "4K S"))
  else
    probe_uvc_setting (atCommandFrame cmd_id input) s

-- ---------------------------------------------------------------------------
-- HID transport (src/hid.rs)
-- ---------------------------------------------------------------------------

/-- Send a single HID output report (must be exactly 255 bytes). -/
def send_hid_packet (packet : List Nat) (s : UsbState) :
    UsbState × Except ElgatoError Unit :=
  if packet.length ≠ HID_PACKET_SIZE then
    (s, .error (.Message "HID packet must be exactly 255 bytes"))
  else
    match usbControlWrite HID_REQUEST_TYPE_OUT HID_SET_REPORT HID_REPORT_VALUE_OUTPUT
        HID_INTERFACE packet s with
    | (s1, .ok _) => (s1, .ok ())
    | (s1, .error e) => (s1, .error (.Message ("Failed to send HID packet: " ++ e)))

/-- Send a two-packet HID sequence. The 1 ms inter-packet sleep has no
transport effect and is not modelled. -/
def send_hid_two_packet (pkt1 pkt2 : List Nat) (s : UsbState) :
    UsbState × Except ElgatoError Unit :=
  match send_hid_packet pkt1 s with
  | (s1, .error e) => (s1, .error e)
  | (s1, .ok _) => send_hid_packet pkt2 s1

-- ---------------------------------------------------------------------------
-- Control facade (src/device.rs): model checks precede any transfer
-- ---------------------------------------------------------------------------

/-- Set custom EDID preset on or off. 4K X only. -/
def set_custom_edid (model : DeviceModel) (mode : CustomEdidMode) (s : UsbState) :
    UsbState × Except ElgatoError Unit :=
  if model ≠ DeviceModel.Elgato4KX then
    (s, .error (.UnsupportedFeature "Custom EDID" "4K S"))
  else
    set_uvc_setting mode.payload_4kx s

/-- Set the audio input source. 4K S only. The second packet of the pair is
the commit packet of the two-packet write scheme. -/
def set_audio_input (model : DeviceModel) (input : AudioInput) (s : UsbState) :
    UsbState × Except ElgatoError Unit :=
  if model ≠ DeviceModel.Elgato4KS then
    (s, .error (.UnsupportedFeature "Audio input selection" "4K X"))
  else
    send_hid_two_packet input.payload_4ks (hid_write_packet SUBCMD_COMMIT 0x01) s

/-- Set the video scaler on or off. 4K S only. -/
def set_video_scaler (model : DeviceModel) (scaler : VideoScaler) (s : UsbState) :
    UsbState × Except ElgatoError Unit :=
  if model ≠ DeviceModel.Elgato4KS then
    (s, .error (.UnsupportedFeature "Video scaler" "4K X"))
  else
    send_hid_two_packet scaler.payload_4ks (hid_write_packet SUBCMD_COMMIT 0x01) s

/-- Set the USB speed mode. 4K X only. -/
def set_usb_speed (model : DeviceModel) (speed : UsbSpeed) (s : UsbState) :
    UsbState × Except ElgatoError (List Nat) :=
  if model ≠ DeviceModel.Elgato4KX then
    (s, .error (.UnsupportedFeature "USB speed switching" "4K S"))
  else
    send_at_command model AT_CMD_SET_USB_SPEED speed.at_input s

-- ---------------------------------------------------------------------------
-- Status reading (src/status.rs): the outcome of each underlying transport
-- read is passed in explicitly, so the claims can quantify over every
-- possible outcome (success, transport error, short response).
-- ---------------------------------------------------------------------------

/-- Display string of an error (src/error.rs, slightly abridged). -/
def ElgatoError.message : ElgatoError → String
  | .DeviceNotFound => "Elgato 4K X or 4K S not found"
  | .HidPacketSize expected got =>
    "HID packet must be exactly " ++ toString expected ++ " bytes, got " ++ toString got
  | .HidTransfer m => "HID transfer failed: " ++ m
  | .UvcTransfer m => "UVC transfer failed: " ++ m
  | .UnsupportedFeature feature model => feature ++ " is not supported on " ++ model
  | .Message m => m

/-- Decode a single HID status field from the outcome of `read_hid_data`. -/
def read_hid_typed {T : Type} (r : Except ElgatoError (List Nat))
    (decode : Nat → ReadValue T) : Option (ReadValue T) :=
  match r with
  | .ok (b :: _) => some (decode b)
  | _ => none

/-- Decode a single UVC setting from the outcome of `read_uvc_setting`. -/
def read_uvc_typed {T : Type} (r : Except ElgatoError (List Nat))
    (decode : List Nat → Option T) : Option T :=
  match r with
  | .ok data => decode data
  | .error _ => none

/-- Read USB speed from the 4K X AT-command outcome. -/
def read_usb_speed_4kx (r : Except ElgatoError (List Nat)) :
    Option (ReadValue UsbSpeedStatus) :=
  match r with
  | .ok data =>
    if 4 < data.length then
      some (match data.getD 4 0 with
        | 0x00 => .Known .FiveGbps
        | 0x01 => .Known .TenGbps
        | v => .Unknown v)
    else none
  | .error _ => none

/-- Firmware version string from the 4K X AT-command outcome: the transport
error and the short-response cases are absorbed into descriptive strings. -/
def read_firmware_version_4kx (r : Except ElgatoError (List Nat)) :
    Except ElgatoError String :=
  match r with
  | .ok data =>
    if 4 ≤ data.length then
      .ok (format_firmware_version_4kx data)
    else
      .ok ("Unexpected response (" ++ toString data.length ++ " bytes): " ++ fmtBytesHex data)
  | .error e => .ok ("Failed to read: " ++ e.message)

/-- Firmware version string from the 4K S HID outcome. The source guards
only `data.len() >= 5` before calling the formatter, which reads `data[5]`
unconditionally, so a five-byte response panics — the panic is propagated as
`none`. -/
def read_firmware_version_4ks_checked (r : Except ElgatoError (List Nat)) :
    Option (Except ElgatoError String) :=
  match r with
  | .ok data =>
    if 5 ≤ data.length then
      (format_firmware_version_4ks_checked data).map Except.ok
    else
      some (.ok ("Unexpected response (" ++ toString data.length ++ " bytes): " ++
        fmtBytesHex data))
  | .error e => some (.ok ("Failed to read: " ++ e.message))

/-- Read the firmware version as a string, dispatching on the model. The
4K X branch never indexes out of bounds (its formatter reads bytes 0-3
behind a `len >= 4` guard), so only the 4K S branch carries a panic path. -/
def read_firmware_version_checked (model : DeviceModel)
    (atRes hidRes : Except ElgatoError (List Nat)) : Option (Except ElgatoError String) :=
  match model with
  | .Elgato4KX => some (read_firmware_version_4kx atRes)
  | .Elgato4KS => read_firmware_version_4ks_checked hidRes

/-- All readable settings from a device. -/
structure DeviceStatus where
  firmware_version : String
  usb_speed : Option (ReadValue UsbSpeedStatus)
  hdmi_color_range : Option (ReadValue EdidRangePolicy)
  hdr_tone_mapping : Option (ReadValue HdrToneMapping)
  edid_range_policy : Option (ReadValue EdidRangePolicy)
  edid_source : Option (ReadValue EdidSource)
  custom_edid : Option CustomEdidStatus
  audio_input : Option (ReadValue AudioInput)
  video_scaler : Option (ReadValue VideoScaler)

/-- Read all 4K S settings into a `DeviceStatus`; the firmware read runs
first, so its panic aborts the whole status read (`none`). -/
def read_status_4ks_checked (fw hdr color edid audio scaler : Except ElgatoError (List Nat)) :
    Option (Except ElgatoError DeviceStatus) :=
  match read_firmware_version_4ks_checked fw with
  | none => none
  | some (.error e) => some (.error e)
  | some (.ok firmware_version) =>
    some (.ok
      { firmware_version := firmware_version
        usb_speed := none
        hdr_tone_mapping := read_hid_typed hdr decode_hdr
        hdmi_color_range := read_hid_typed color decode_color_range
        edid_source := read_hid_typed edid decode_edid_mode
        edid_range_policy := none
        custom_edid := none
        audio_input := read_hid_typed audio decode_audio_input
        video_scaler := read_hid_typed scaler decode_video_scaler })

/-- Read all 4K X settings into a `DeviceStatus`. -/
def read_status_4kx (fw usb edidResp color hdr range : Except ElgatoError (List Nat)) :
    Except ElgatoError DeviceStatus :=
  match read_firmware_version_4kx fw with
  | .error e => .error e
  | .ok firmware_version =>
    let usb_speed := read_usb_speed_4kx usb
    let sc :=
      match edidResp with
      | .ok data => decode_uvc_edid_source data
      | .error _ => (none, none)
    .ok { firmware_version := firmware_version
          usb_speed := usb_speed
          hdmi_color_range := read_uvc_typed color decode_uvc_color_range
          hdr_tone_mapping := read_uvc_typed hdr decode_uvc_hdr
          edid_range_policy := read_uvc_typed range decode_uvc_edid_range
          edid_source := sc.1
          custom_edid := sc.2
          audio_input := none
          video_scaler := none }

/-- Read all available settings, dispatching on the model. The 4K X branch
has no out-of-bounds path; the 4K S branch inherits the firmware panic. -/
def read_status_checked (model : DeviceModel)
    (fw usb edidResp color hdr range audio scaler : Except ElgatoError (List Nat)) :
    Option (Except ElgatoError DeviceStatus) :=
  match model with
  | .Elgato4KX => some (read_status_4kx fw usb edidResp color hdr range)
  | .Elgato4KS => read_status_4ks_checked fw hdr color edidResp audio scaler

-- ---------------------------------------------------------------------------
-- Concrete oracles and predicates used by the theorems below
-- ---------------------------------------------------------------------------

/-- Well-formedness of a 4K S HID settings packet: exact size, fixed write
header, sub-command at byte 5, value at byte 6, zero padding after. -/
def HidPacketOk (pkt : List Nat) (sub_cmd value : Nat) : Prop :=
  pkt.length = HID_PACKET_SIZE ∧
  pkt.take 5 = HID_WRITE_HEADER ∧
  pkt.getD 5 0 = sub_cmd ∧
  pkt.getD 6 0 = value ∧
  pkt.drop 7 = List.replicate 248 0

/-- Oracle where the third transport call (the GET_LEN of the status poll)
fails while every other call succeeds: call 3 is the value GET_LEN answering
length 2, call 4 the value GET_CUR answering two bytes. -/
def pollFailOracle : Nat → Except String (List Nat)
  | 2 => .error "status poll failed"
  | 3 => .ok [2, 0]
  | 4 => .ok [0x99, 0x88]
  | _ => .ok []

/-- Transport state whose every call fails. -/
def usbFailState : UsbState :=
  ⟨fun _ => .error "usb fail", 0, []⟩

-- ---------------------------------------------------------------------------
-- Helper lemmas
-- ---------------------------------------------------------------------------

/-- Folding u8 wrapping addition over a list computes the sum modulo 256. -/
theorem foldl_wrap_add_eq_sum_mod (l : List Nat) :
    ∀ a : Nat, l.foldl (fun acc b => (acc + b) % 256) (a % 256) = (a + l.sum) % 256 := by
  induction l with
  | nil => intro a; simp
  | cons b t ih =>
    intro a
    simp only [List.foldl_cons, List.sum_cons]
    have h1 : (a % 256 + b) % 256 = (a + b) % 256 := by omega
    rw [h1, ih (a + b), Nat.add_assoc]

/-- Appending the two's-complement LRC byte makes the total sum vanish
modulo 256. -/
theorem sum_append_lrc (payload : List Nat) :
    (payload ++ [(256 - payload.foldl (fun acc b => (acc + b) % 256) 0) % 256]).sum % 256
      = 0 := by
  have hf : payload.foldl (fun acc b => (acc + b) % 256) 0 = payload.sum % 256 := by
    have := foldl_wrap_add_eq_sum_mod payload 0
    simpa using this
  rw [hf]
  simp only [List.sum_append, List.sum_cons, List.sum_nil]
  omega

/-- Shape of every packet built by `hid_write_packet`. -/
theorem hid_write_packet_ok (sub_cmd value : Nat) :
    HidPacketOk (hid_write_packet sub_cmd value) sub_cmd value := by
  refine ⟨?_, rfl, rfl, rfl, rfl⟩
  show (HID_WRITE_HEADER ++ [sub_cmd, value] ++ List.replicate 248 0).length = 255
  rw [List.length_append, List.length_append, List.length_replicate]
  rfl

-- ---------------------------------------------------------------------------
-- Claim theorems
-- ---------------------------------------------------------------------------

/-- C1: the AT-command frame built by `send_at_command` is exactly
`[0xa1, lengthIndicator, 0x00, 0x00, cmdId(4 bytes LE), input, checksum]`
with `lengthIndicator = (len(cmdIdBytes ++ input) + 2) &&& 0x7f`, and the
bytes of the whole frame sum to 0 modulo 256. -/
theorem at_command_frame_layout_checksum (cmd_id : Nat) (input : List Nat) :
    ∃ c : Nat, c < 256 ∧
      atCommandFrame cmd_id input =
        [0xa1, ((u32le cmd_id ++ input).length + 2) &&& 0x7f, 0x00, 0x00] ++
          u32le cmd_id ++ input ++ [c] ∧
      (atCommandFrame cmd_id input).sum % 256 = 0 := by
  refine ⟨(256 - ([0xa1, ((u32le cmd_id ++ input).length + 2) &&& 0x7f, 0x00, 0x00] ++
        (u32le cmd_id ++ input)).foldl (fun acc b => (acc + b) % 256) 0) % 256,
      Nat.mod_lt _ (by norm_num), ?_, ?_⟩
  · simp [atCommandFrame]
  · exact sum_append_lrc
      ([0xa1, ((u32le cmd_id ++ input).length + 2) &&& 0x7f, 0x00, 0x00] ++
        (u32le cmd_id ++ input))

/-- C5: every 4K S HID payload produced by the Setting Codec is 255 bytes,
carries the fixed write header in its first five bytes, the sub-command of
its family at byte 5, the value byte at byte 6, and zeros everywhere after. -/
theorem hid_payloads_well_formed :
    (∀ p : EdidRangePolicy, HidPacketOk p.payload_4ks SUBCMD_COLOR_RANGE p.value_4ks) ∧
    (∀ p : EdidSource, HidPacketOk p.payload_4ks SUBCMD_EDID_MODE p.value_4ks) ∧
    (∀ p : HdrToneMapping, HidPacketOk p.payload_4ks SUBCMD_HDR_TONEMAPPING p.value_4ks) ∧
    (∀ p : AudioInput, HidPacketOk p.payload_4ks SUBCMD_AUDIO_INPUT p.value_4ks) ∧
    (∀ p : VideoScaler, HidPacketOk p.payload_4ks SUBCMD_VIDEO_SCALER p.value_4ks) :=
  ⟨fun p => hid_write_packet_ok _ p.value_4ks,
   fun p => hid_write_packet_ok _ p.value_4ks,
   fun p => hid_write_packet_ok _ p.value_4ks,
   fun p => hid_write_packet_ok _ p.value_4ks,
   fun p => hid_write_packet_ok _ p.value_4ks⟩

/-- C3 counterexample: the byte the codec places for `AudioInput.Analog`
(`0x01`, at offset 6 of the HID payload) decodes to `Known Embedded`, not
`Known Analog`, so the claimed encode/decode round trip fails there. -/
theorem audio_analog_roundtrip_fails :
    decode_audio_input ((AudioInput.Analog.payload_4ks).getD 6 0) =
        ReadValue.Known AudioInput.Embedded ∧
      ReadValue.Known AudioInput.Embedded ≠ ReadValue.Known AudioInput.Analog := by
  decide

/-- C3 (amended): the encode/decode round trip holds for every family and
value with both a codec and a decoder on the same variant, except
`AudioInput.Analog` on the 4K S, whose encoded byte `0x01` decodes to
`Known Embedded` (the decoder reads Analog back as `0x03`). -/
theorem encode_decode_roundtrip :
    (∀ v : HdrToneMapping, decode_hdr ((v.payload_4ks).getD 6 0) = .Known v) ∧
    (∀ v : EdidRangePolicy, decode_color_range ((v.payload_4ks).getD 6 0) = .Known v) ∧
    (∀ v : EdidSource, decode_edid_mode ((v.payload_4ks).getD 6 0) = .Known v) ∧
    (∀ v : VideoScaler, decode_video_scaler ((v.payload_4ks).getD 6 0) = .Known v) ∧
    decode_audio_input ((AudioInput.Embedded.payload_4ks).getD 6 0) = .Known .Embedded ∧
    decode_audio_input ((AudioInput.Analog.payload_4ks).getD 6 0) = .Known .Embedded ∧
    (∀ v : HdrToneMapping, decode_uvc_hdr v.payload_4kx = some (.Known v)) ∧
    (∀ v : EdidRangePolicy, decode_uvc_edid_range v.payload_4kx = some (.Known v)) ∧
    (∀ v : EdidSource, decode_uvc_edid_source v.payload_4kx = (some (.Known v), none)) ∧
    decode_uvc_edid_source CustomEdidMode.Off.payload_4kx = (none, some .Off) ∧
    decode_uvc_edid_source CustomEdidMode.On.payload_4kx = (none, some (.On 1)) := by
  refine ⟨?_, ?_, ?_, ?_, by decide, by decide, ?_, ?_, ?_, by decide, by decide⟩ <;>
    intro v <;> cases v <;> decide

/-- C7: each Surface B single-byte status decoder maps every byte outside
the value table of its family to `Unknown(byte)` and every byte in the table
to the tabulated `Known` value; the decoders are total, so no input is an
error. -/
theorem surface_b_decoders_total : ∀ v : Nat,
    (v ≠ 0x00 → v ≠ 0x01 → decode_hdr v = .Unknown v) ∧
    decode_hdr 0x00 = .Known .Off ∧ decode_hdr 0x01 = .Known .On ∧
    (v ≠ 0x00 → v ≠ 0x01 → v ≠ 0x02 → decode_color_range v = .Unknown v) ∧
    decode_color_range 0x00 = .Known .Auto ∧ decode_color_range 0x01 = .Known .Expand ∧
    decode_color_range 0x02 = .Known .Shrink ∧
    (v ≠ 0x00 → v ≠ 0x01 → v ≠ 0x02 → decode_edid_mode v = .Unknown v) ∧
    decode_edid_mode 0x00 = .Known .Merged ∧ decode_edid_mode 0x01 = .Known .Display ∧
    decode_edid_mode 0x02 = .Known .Internal ∧
    (v ≠ 0x00 → v ≠ 0x01 → v ≠ 0x03 → decode_audio_input v = .Unknown v) ∧
    decode_audio_input 0x00 = .Known .Embedded ∧ decode_audio_input 0x01 = .Known .Embedded ∧
    decode_audio_input 0x03 = .Known .Analog ∧
    (v ≠ 0x00 → v ≠ 0x01 → decode_video_scaler v = .Unknown v) ∧
    decode_video_scaler 0x00 = .Known .Off ∧ decode_video_scaler 0x01 = .Known .On := by
  intro v
  refine ⟨?_, rfl, rfl, ?_, rfl, rfl, rfl, ?_, rfl, rfl, rfl, ?_, rfl, rfl, rfl, ?_, rfl, rfl⟩
  · intro h0 h1
    match v with
    | 0 => exact absurd rfl h0
    | 1 => exact absurd rfl h1
    | n + 2 => rfl
  · intro h0 h1 h2
    match v with
    | 0 => exact absurd rfl h0
    | 1 => exact absurd rfl h1
    | 2 => exact absurd rfl h2
    | n + 3 => rfl
  · intro h0 h1 h2
    match v with
    | 0 => exact absurd rfl h0
    | 1 => exact absurd rfl h1
    | 2 => exact absurd rfl h2
    | n + 3 => rfl
  · intro h0 h1 h3
    match v with
    | 0 => exact absurd rfl h0
    | 1 => exact absurd rfl h1
    | 2 => rfl
    | 3 => exact absurd rfl h3
    | n + 4 => rfl
  · intro h0 h1
    match v with
    | 0 => exact absurd rfl h0
    | 1 => exact absurd rfl h1
    | n + 2 => rfl

/-- C7 witness: byte `0x02` is outside the HDR table, so it decodes to
`Unknown 0x02`. -/
theorem surface_b_decoders_total_witness :
    decode_hdr 0x02 = .Unknown 0x02 :=
  (surface_b_decoders_total 0x02).1 (by decide) (by decide)

/-- C8: a 4K S firmware response whose BCD month byte exceeds 0x12 or whose
BCD day byte exceeds 0x31 (and whose year/month/day bytes are not all zero)
is formatted as the raw-bytes fallback, not as a parsed date; the formatter
is total, so no input is an error. -/
theorem fw_4ks_out_of_range_raw_fallback (data : List Nat)
    (hlen : 6 ≤ data.length)
    (hrange : BCD_MAX_MONTH < data.getD 4 0 ∨ BCD_MAX_DAY < data.getD 5 0)
    (hnz : ¬ (data.getD 3 0 = 0 ∧ data.getD 4 0 = 0 ∧ data.getD 5 0 = 0)) :
    format_firmware_version_4ks data =
      "Raw: " ++ fmtBytesHex (data.take (min 8 data.length)) := by
  have h2 : ¬ (1 ≤ data.getD 4 0 ∧ data.getD 4 0 ≤ BCD_MAX_MONTH ∧
      1 ≤ data.getD 5 0 ∧ data.getD 5 0 ≤ BCD_MAX_DAY) := by
    unfold BCD_MAX_MONTH BCD_MAX_DAY at hrange ⊢
    omega
  unfold format_firmware_version_4ks
  rw [if_neg hnz, if_neg h2]

/-- C8 witness: the response `[00,00,00,25,15,03,00,00]` (month byte 0x15)
yields the raw-bytes fallback. -/
theorem fw_4ks_out_of_range_raw_fallback_witness :
    format_firmware_version_4ks [0x00, 0x00, 0x00, 0x25, 0x15, 0x03, 0x00, 0x00] =
      "Raw: " ++
        fmtBytesHex ([0x00, 0x00, 0x00, 0x25, 0x15, 0x03, 0x00, 0x00].take (min 8 8)) :=
  fw_4ks_out_of_range_raw_fallback [0x00, 0x00, 0x00, 0x25, 0x15, 0x03, 0x00, 0x00]
    (by decide) (by decide) (by decide)

/-- C9: for a well-headed response (at least 13 bytes starting `a1 0a`) the
EDID decoder branches solely on byte 4 — `0x4d` gives only an EDID-source
reading, `0x54` only a custom-EDID reading, anything else neither; a bad
header gives neither reading (no error); no input ever yields both. -/
theorem edid_decoder_branches_on_type_byte (data : List Nat) :
    (13 ≤ data.length → data.getD 0 0 = 0xa1 → data.getD 1 0 = UVC_FAMILY_EDID_SOURCE →
      (data.getD 4 0 = 0x4d → ∃ v, decode_uvc_edid_source data = (some v, none)) ∧
      (data.getD 4 0 = 0x54 → ∃ c, decode_uvc_edid_source data = (none, some c)) ∧
      (data.getD 4 0 ≠ 0x4d → data.getD 4 0 ≠ 0x54 →
        decode_uvc_edid_source data = (none, none))) ∧
    (¬ (13 ≤ data.length ∧ data.getD 0 0 = 0xa1 ∧ data.getD 1 0 = UVC_FAMILY_EDID_SOURCE) →
      decode_uvc_edid_source data = (none, none)) ∧
    (∀ v c, decode_uvc_edid_source data ≠ (some v, some c)) := by
  refine ⟨?_, ?_, ?_⟩
  · intro hlen h0 h1
    have hcond : ¬ (data.length < 13 ∨ data.getD 0 0 ≠ 0xa1 ∨
        data.getD 1 0 ≠ UVC_FAMILY_EDID_SOURCE) := by
      push_neg
      exact ⟨by omega, h0, h1⟩
    refine ⟨?_, ?_, ?_⟩
    · intro h4
      unfold decode_uvc_edid_source
      rw [if_neg hcond, h4]
      exact ⟨_, rfl⟩
    · intro h4
      unfold decode_uvc_edid_source
      rw [if_neg hcond, h4]
      exact ⟨_, rfl⟩
    · intro h4d h54
      unfold decode_uvc_edid_source
      rw [if_neg hcond]
      split
      · next h => exact absurd h h4d
      · next h => exact absurd h h54
      · rfl
  · intro hno
    unfold decode_uvc_edid_source
    split
    · rfl
    · next hcond =>
      push_neg at hcond
      exact absurd ⟨by omega, hcond.2.1, hcond.2.2⟩ hno
  · intro v c
    unfold decode_uvc_edid_source
    split
    · simp
    · split <;> simp

/-- C9 witness: the repo test vector `a1 0a .. 4d .. 01 ..` decodes to an
EDID-source reading and no custom-EDID reading. -/
theorem edid_decoder_branches_witness :
    ∃ v, decode_uvc_edid_source
        [0xa1, 0x0a, 0x00, 0x00, 0x4d, 0x00, 0x00, 0x00, 0x01, 0x00, 0x00, 0x00, 0x07] =
      (some v, none) :=
  ((edid_decoder_branches_on_type_byte
      [0xa1, 0x0a, 0x00, 0x00, 0x4d, 0x00, 0x00, 0x00, 0x01, 0x00, 0x00, 0x00, 0x07]).1
    (by decide) (by decide) (by decide)).1 (by decide)

/-- C4: each setting operation invoked on the model that does not support it
returns the distinguished `UnsupportedFeature` error with the transport state
returned untouched — in particular the call log is unchanged, so zero
transport calls are performed. -/
theorem unsupported_settings_refused_without_transfer :
    ∀ (s : UsbState) (m : CustomEdidMode) (sp : UsbSpeed) (a : AudioInput) (v : VideoScaler),
      set_custom_edid .Elgato4KS m s =
          (s, .error (.UnsupportedFeature "Custom EDID" "4K S")) ∧
      set_usb_speed .Elgato4KS sp s =
          (s, .error (.UnsupportedFeature "USB speed switching" "4K S")) ∧
      set_audio_input .Elgato4KX a s =
          (s, .error (.UnsupportedFeature "Audio input selection" "4K X")) ∧
      set_video_scaler .Elgato4KX v s =
          (s, .error (.UnsupportedFeature "Video scaler" "4K X")) :=
  fun _ _ _ _ _ => ⟨rfl, rfl, rfl, rfl⟩

/-- C6: when the first packet of a two-packet HID write fails (its result
state and error being whatever `send_hid_packet` produced), the second packet
is never attempted — the state is exactly the first step state — and the
first failure is surfaced unchanged. -/
theorem hid_two_packet_aborts_on_first_failure
    (pkt1 pkt2 : List Nat) (s s1 : UsbState) (e : ElgatoError)
    (h : send_hid_packet pkt1 s = (s1, .error e)) :
    send_hid_two_packet pkt1 pkt2 s = (s1, .error e) := by
  unfold send_hid_two_packet
  rw [h]

set_option maxRecDepth 8000 in
/-- C6 witness: a 255-byte packet whose transport call fails aborts the
two-packet write with the wrapped transport error after one logged call. -/
theorem hid_two_packet_aborts_witness :
    send_hid_two_packet (hid_write_packet SUBCMD_HDR_TONEMAPPING 0x01)
        (hid_write_packet SUBCMD_COMMIT 0x01) usbFailState =
      (⟨usbFailState.oracle, 1,
          [UsbXfer.controlWrite HID_REQUEST_TYPE_OUT HID_SET_REPORT
            HID_REPORT_VALUE_OUTPUT HID_INTERFACE
            (hid_write_packet SUBCMD_HDR_TONEMAPPING 0x01)]⟩,
       .error (.Message ("Failed to send HID packet: " ++ "usb fail"))) :=
  hid_two_packet_aborts_on_first_failure _ _ _ _ _ rfl

/-- Helper: on every input whose bytes 3-5 exist, the faithful
partial-indexing formatter succeeds and agrees with the totalized one. -/
theorem format_firmware_version_4ks_checked_agrees (data : List Nat)
    (h : 6 ≤ data.length) :
    format_firmware_version_4ks_checked data = some (format_firmware_version_4ks data) := by
  obtain ⟨x3, hx3⟩ : ∃ x, data.get? 3 = some x := by
    cases hx : data.get? 3 with
    | none => rw [List.get?_eq_none] at hx; omega
    | some x => exact ⟨x, rfl⟩
  obtain ⟨x4, hx4⟩ : ∃ x, data.get? 4 = some x := by
    cases hx : data.get? 4 with
    | none => rw [List.get?_eq_none] at hx; omega
    | some x => exact ⟨x, rfl⟩
  obtain ⟨x5, hx5⟩ : ∃ x, data.get? 5 = some x := by
    cases hx : data.get? 5 with
    | none => rw [List.get?_eq_none] at hx; omega
    | some x => exact ⟨x, rfl⟩
  have e3 : data.getD 3 0 = x3 := by rw [List.getD_eq_getD_get?, hx3]; rfl
  have e4 : data.getD 4 0 = x4 := by rw [List.getD_eq_getD_get?, hx4]; rfl
  have e5 : data.getD 5 0 = x5 := by rw [List.getD_eq_getD_get?, hx5]; rfl
  unfold format_firmware_version_4ks_checked format_firmware_version_4ks
  rw [hx3, hx4, hx5, e3, e4, e5]

/-- C10 (code bug): `read_firmware_version` on the 4K S guards only
`data.len() >= 5` before calling a formatter that reads `data[5]`
unconditionally, so a response of exactly five bytes passes the guard and
panics with an index out of bounds instead of being absorbed into an `Ok`
fallback string: at the concrete outcome `[00, 00, 00, 25, 0c]` the firmware
read and the whole status read hit the out-of-bounds access (modelled
`none`), for every outcome of the other transport calls. -/
theorem read_operations_panic_on_five_byte_response :
    5 ≤ ([0x00, 0x00, 0x00, 0x25, 0x0c] : List Nat).length ∧
    ([0x00, 0x00, 0x00, 0x25, 0x0c] : List Nat).get? 5 = none ∧
    format_firmware_version_4ks_checked [0x00, 0x00, 0x00, 0x25, 0x0c] = none ∧
    (∀ atRes : Except ElgatoError (List Nat),
      read_firmware_version_checked .Elgato4KS atRes
        (.ok [0x00, 0x00, 0x00, 0x25, 0x0c]) = none) ∧
    (∀ usb edidResp color hdr range audio scaler : Except ElgatoError (List Nat),
      read_status_checked .Elgato4KS (.ok [0x00, 0x00, 0x00, 0x25, 0x0c])
        usb edidResp color hdr range audio scaler = none) :=
  ⟨by decide, rfl, rfl, fun _ => rfl, fun _ _ _ _ _ _ _ => rfl⟩

/-- C2 counterexample: with `pollFailOracle` the third transport call of the
probe (the GET_LEN of the status-poll step) fails, yet the probe returns the
final read result `Ok` and still performs the two later read steps (five
transport calls in total) — the failing step's error is not returned and
later steps do run, contradicting the claim as stated. -/
theorem probe_ignores_poll_failure :
    pollFailOracle 2 = .error "status poll failed" ∧
    (probe_uvc_setting [0xa1] ⟨pollFailOracle, 0, []⟩).2 = .ok [0x99, 0x88] ∧
    (probe_uvc_setting [0xa1] ⟨pollFailOracle, 0, []⟩).1.calls.length = 5 :=
  ⟨rfl, rfl, rfl⟩

/-- C2 (amended): a transport failure in the trigger write, the payload
write, the value GET_LEN, or the value GET_CUR aborts the probe with that
step's error and no later transport call is issued (the call count equals
the calls made up to and including the failing one); only the status-poll
step's outcome is discarded, with the probe continuing regardless. -/
theorem probe_aborts_on_framed_step_failure
    (o : Nat → Except String (List Nat)) (probe : List Nat) (e : String) :
    (o 0 = .error e →
      (probe_uvc_setting probe ⟨o, 0, []⟩).2 =
          .error (.UvcTransfer ("trigger SET_CUR failed: " ++ e)) ∧
        (probe_uvc_setting probe ⟨o, 0, []⟩).1.calls.length = 1) ∧
    (∀ b0, o 0 = .ok b0 → o 1 = .error e →
      (probe_uvc_setting probe ⟨o, 0, []⟩).2 =
          .error (.UvcTransfer ("payload SET_CUR failed: " ++ e)) ∧
        (probe_uvc_setting probe ⟨o, 0, []⟩).1.calls.length = 2) ∧
    (∀ b0 b1 b2, o 0 = .ok b0 → o 1 = .ok b1 → o 2 = .ok b2 → 2 ≤ b2.length →
      o 4 = .error e →
      (probe_uvc_setting probe ⟨o, 0, []⟩).2 =
          .error (.UvcTransfer ("GET_LEN failed: " ++ e)) ∧
        (probe_uvc_setting probe ⟨o, 0, []⟩).1.calls.length = 5) ∧
    (∀ b0 b1 b2 b4, o 0 = .ok b0 → o 1 = .ok b1 → o 2 = .ok b2 → 2 ≤ b2.length →
      o 4 = .ok b4 → 2 ≤ b4.length → o 5 = .error e →
      (probe_uvc_setting probe ⟨o, 0, []⟩).2 =
          .error (.UvcTransfer ("GET_CUR failed: " ++ e)) ∧
        (probe_uvc_setting probe ⟨o, 0, []⟩).1.calls.length = 6) := by
  refine ⟨?_, ?_, ?_, ?_⟩
  · intro h0
    simp [probe_uvc_setting, set_uvc_setting, send_uvc_trigger_data, send_uvc_payload,
      usbControlWrite, usbControlRead, get_uvc_len, read_uvc_setting, read_uvc_raw,
      poll_uvc_status, Except.map, h0]
  · intro b0 h0 h1
    simp [probe_uvc_setting, set_uvc_setting, send_uvc_trigger_data, send_uvc_payload,
      usbControlWrite, usbControlRead, get_uvc_len, read_uvc_setting, read_uvc_raw,
      poll_uvc_status, Except.map, h0, h1]
  · intro b0 b1 b2 h0 h1 h2 hb2 h4
    have ht : ¬ b2.length < 2 := by omega
    cases ho3 : o 3 <;>
      simp [probe_uvc_setting, set_uvc_setting, send_uvc_trigger_data, send_uvc_payload,
        usbControlWrite, usbControlRead, get_uvc_len, read_uvc_setting, read_uvc_raw,
        poll_uvc_status, Except.map, h0, h1, h2, ho3, h4, ht]
  · intro b0 b1 b2 b4 h0 h1 h2 hb2 h4 hb4 h5
    have ht : ¬ b2.length < 2 := by omega
    have ht4 : ¬ b4.length < 2 := by omega
    cases ho3 : o 3 <;>
      simp [probe_uvc_setting, set_uvc_setting, send_uvc_trigger_data, send_uvc_payload,
        usbControlWrite, usbControlRead, get_uvc_len, read_uvc_setting, read_uvc_raw,
        poll_uvc_status, Except.map, h0, h1, h2, ho3, h4, hb4, h5, ht, ht4]

/-- C2 witness: a failing first transport call aborts the probe with the
wrapped trigger error after exactly one call. -/
theorem probe_aborts_witness :
    (probe_uvc_setting [0xa1] ⟨(fun _ => .error "x"), 0, []⟩).2 =
        .error (.UvcTransfer ("trigger SET_CUR failed: " ++ "x")) ∧
      (probe_uvc_setting [0xa1] ⟨(fun _ => .error "x"), 0, []⟩).1.calls.length = 1 :=
  (probe_aborts_on_framed_step_failure (fun _ => .error "x") [0xa1] "x").1 rfl

end Elgato
